import Mathlib

/-!
Shallow embedding of the multi-server MCP client (src/client.py and
src/main.py). External effects — the stdio transport, the protocol
handshake, live tool listing, tool execution, the model API, console
printing — are represented by explicit oracle parameters and result
values; the mutable client object becomes an explicitly passed state.
The conversation history list built by process_query is consumed only by
the external model, which is modelled as a fixed script of responses, so
the history itself is write-only and is not tracked.
-/

namespace Mcp

/-- A tool advertised by a server (the mcp.Tool fields used by client.py);
the structured input schema is opaque to the client, kept as a string. -/
structure Tool where
  name : String
  description : String
  inputSchema : String
deriving DecidableEq, Repr

/-- One live server connection (class ServerConnection): caller-chosen id,
the cached tool list self.tools, and the tool list the live session
currently advertises; session.list_tools() returns live and stores it
into the cache. The transport handles (stdio, write) are external and
carry no client-visible state. -/
structure ServerConnection where
  server_id : String
  tools : List Tool
  live : List Tool
deriving DecidableEq, Repr

/-- The MCPClient state that the registry claims are about: the servers
dict (insertion-ordered, modelled as an association list) and the current
server id. -/
structure MCPClient where
  servers : List (String × ServerConnection)
  current_server_id : Option String
deriving DecidableEq, Repr

/-- The fresh client produced by MCPClient.__init__. -/
def initClient : MCPClient := { servers := [], current_server_id := none }

/-- Keyed lookup in an insertion-ordered association list (Python dict
lookup / membership test). -/
def alookup {α : Type} : List (String × α) → String → Option α
  | [], _ => none
  | (k, v) :: rest, key => if k = key then some v else alookup rest key

/-- Removal of a key (Python del d[k]); keys are unique in every reachable
registry, so removing every occurrence coincides with removing the one. -/
def aerase {α : Type} : List (String × α) → String → List (String × α)
  | [], _ => []
  | (k, v) :: rest, key => if k = key then aerase rest key else (k, v) :: aerase rest key

/-- In-place update of the value stored at a key, keeping its position
(Python mutation of the object held in the dict). -/
def aupdate {α : Type} : List (String × α) → String → α → List (String × α)
  | [], _, _ => []
  | (k, v) :: rest, key, v2 => if k = key then (k, v2) :: rest else (k, v) :: aupdate rest key v2

/-- Python str.endswith, computed on the character data of the strings
(String.endsWith of the library does not reduce inside the kernel). -/
def strEndsWith (s suffix : String) : Bool :=
  List.isSuffixOf suffix.data s.data

/-- Outcome of the external steps of one connect attempt: whether the
stdio transport comes up, whether the protocol handshake succeeds,
whether the initial tool-list fetch succeeds, and the tool list the
server advertises. -/
structure ConnectExt where
  transportOk : Bool
  initOk : Bool
  listToolsOk : Bool
  liveTools : List Tool
deriving DecidableEq, Repr

/-- Observable outcome of connect_to_server: the duplicate-id console
message, the ValueError for a bad script suffix, a failure at one of the
three external steps, or success carrying the printed tool names. -/
inductive ConnectResult where
  | duplicateMsg : String → ConnectResult
  | valueError : ConnectResult
  | transportError : ConnectResult
  | initError : ConnectResult
  | listToolsError : ConnectResult
  | success : List String → ConnectResult
deriving DecidableEq, Repr

/-- client.py connect_to_server. The duplicate check and the script-suffix
check precede every external step; the connection is stored and possibly
made current BEFORE the initial tool-list fetch, so a fetch failure
leaves the new entry registered with an empty tool cache. -/
def connect_to_server (st : MCPClient) (server_id server_script_path : String)
    (ext : ConnectExt) : MCPClient × ConnectResult :=
  if (alookup st.servers server_id).isSome then
    (st, ConnectResult.duplicateMsg server_id)
  else if !(strEndsWith server_script_path ".py" || strEndsWith server_script_path ".js") then
    (st, ConnectResult.valueError)
  else if !ext.transportOk then
    (st, ConnectResult.transportError)
  else if !ext.initOk then
    (st, ConnectResult.initError)
  else
    let conn : ServerConnection :=
      { server_id := server_id, tools := [], live := ext.liveTools }
    let st1 : MCPClient := { st with servers := st.servers ++ [(server_id, conn)] }
    let st2 : MCPClient :=
      if st1.current_server_id = none then
        { st1 with current_server_id := some server_id }
      else st1
    if !ext.listToolsOk then
      (st2, ConnectResult.listToolsError)
    else
      let conn2 : ServerConnection := { conn with tools := conn.live }
      let st3 : MCPClient := { st2 with servers := aupdate st2.servers server_id conn2 }
      (st3, ConnectResult.success (conn2.tools.map Tool.name))

/-- client.py switch_server: set the current server if the id is present,
report failure otherwise. -/
def switch_server (st : MCPClient) (server_id : String) : MCPClient × Bool :=
  if (alookup st.servers server_id).isSome then
    ({ st with current_server_id := some server_id }, true)
  else
    (st, false)

/-- client.py disconnected_server: absent id reports false and changes
nothing; a present id is deleted, and if it was current the new current
becomes the first remaining entry in insertion order (next(iter(keys)))
or none when the registry became empty. -/
def disconnected_server (st : MCPClient) (server_id : String) : MCPClient × Bool :=
  match alookup st.servers server_id with
  | none => (st, false)
  | some _ =>
    let servers2 := aerase st.servers server_id
    let current2 : Option String :=
      if st.current_server_id = some server_id then
        match servers2 with
        | [] => none
        | (k, _) :: _ => some k
      else st.current_server_id
    ({ servers := servers2, current_server_id := current2 }, true)

/-- A registry mutation of the interactive session: one connect attempt
(with its external outcome), one switch, or one disconnect. -/
inductive Op where
  | connect : String → String → ConnectExt → Op
  | switch : String → Op
  | disconnect : String → Op
deriving DecidableEq, Repr

/-- Apply one mutation to the client state, discarding the reported value. -/
def applyOp (st : MCPClient) : Op → MCPClient
  | Op.connect server_id path ext => (connect_to_server st server_id path ext).1
  | Op.switch server_id => (switch_server st server_id).1
  | Op.disconnect server_id => (disconnected_server st server_id).1

/-- Run a sequence of mutations from a starting state. -/
def runOps (st : MCPClient) (ops : List Op) : MCPClient :=
  ops.foldl applyOp st

/-- The registry invariant: current_server_id is unset or names a key of
the servers mapping. -/
def invHolds (st : MCPClient) : Bool :=
  match st.current_server_id with
  | none => true
  | some server_id => (alookup st.servers server_id).isSome

/-- Python truthiness of the optional current server id: None and the
empty string are falsy. -/
def isFalsy : Option String → Bool
  | none => true
  | some s => s.isEmpty

/-- The early-return message of process_query when no server is active
(exact source string, including the leading space). -/
def noActiveServerMsg : String := " No active server. Please to at least one server first"

/-- The notice appended to final_text when the model requests a tool that
no connected server owns. -/
def unknownToolNotice (tool_name : String) : String :=
  "Error: Tool " ++ tool_name ++ " not found on any connected server."

/-- The notice appended to final_text when a tool call is dispatched;
args is the textual form of the structured arguments. -/
def callingNotice (tool_name server_id args : String) : String :=
  "[Calling tool " ++ tool_name ++ " on server " ++ server_id ++ " with args " ++ args ++ "]"

/-- The description sent to the model for a catalog entry, prefixed with
the owning server id. -/
def qualifiedDescription (server_id description : String) : String :=
  "[Server: " ++ server_id ++ "] " ++ description

/-- One content block of a model response: plain text, or a tool request
carrying a correlation id, the tool name, and the textual form of its
structured arguments (the arguments are opaque to the orchestrator: it
only interpolates them into the call notice and forwards them). -/
inductive ContentBlock where
  | text : String → ContentBlock
  | tool_use : String → String → String → ContentBlock
deriving DecidableEq, Repr

/-- One catalog entry sent to the model (the tool_dict built per tool). -/
structure ToolDict where
  name : String
  description : String
  input_schema : String
deriving DecidableEq, Repr

/-- Externally observable calls made while processing a query: one model
API call, or one tool call on a server transport (with its result). -/
inductive Event where
  | modelCall : Event
  | serverCall : String → String → String → String → Event
deriving DecidableEq, Repr

/-- Catalog accumulation for one server: append one qualified entry per
advertised tool, and overwrite the owner map at each tool name; the
owner map is kept in reverse write order so that first-match lookup
returns the latest write (Python dict overwrite). -/
def catalogStep (acc : List ToolDict × List (String × String))
    (entry : String × ServerConnection) : List ToolDict × List (String × String) :=
  entry.2.live.foldl
    (fun acc2 t =>
      (acc2.1 ++ [{ name := t.name,
                    description := qualifiedDescription entry.1 t.description,
                    input_schema := t.inputSchema }],
       (t.name, entry.1) :: acc2.2))
    acc

/-- The catalog loop of process_query: iterate the registry in insertion
order, re-querying each server live, producing all_tools and
server_tool_map. -/
def buildCatalog (servers : List (String × ServerConnection)) :
    List ToolDict × List (String × String) :=
  servers.foldl catalogStep ([], [])

/-- The catalog loop also refreshes every connection cache from the live
session (self.tools is overwritten by list_tools). -/
def refreshAll (servers : List (String × ServerConnection)) :
    List (String × ServerConnection) :=
  servers.map (fun entry => (entry.1, { entry.2 with tools := entry.2.live }))

/-- State threaded through the content-block loop of process_query:
accumulated text fragments, the unconsumed model script, the log of
external calls, and whether execution is still live (ok = false models a
raised exception, which aborts the loop and propagates). -/
structure LoopSt where
  final_text : List String
  script : List (List ContentBlock)
  log : List Event
  ok : Bool
deriving DecidableEq, Repr

/-- The body of the for-loop over the first response content in
process_query. A text block appends its text. A tool request owned by
some server is dispatched there (one server call), the call notice is
appended, and one further model call is made whose first content block
must be text and is appended (an empty script models a failing API call,
and a leading non-text block models the AttributeError of .text; both
raise, so ok becomes false). A tool request owned by no server only
appends the error notice. -/
def processBlock (toolMap : List (String × String))
    (callTool : String → String → String → String)
    (s : LoopSt) (b : ContentBlock) : LoopSt :=
  if s.ok = false then s
  else
    match b with
    | ContentBlock.text t => { s with final_text := s.final_text ++ [t] }
    | ContentBlock.tool_use _corr tool_name args =>
      match alookup toolMap tool_name with
      | some server_id =>
        let s1 : LoopSt :=
          { s with
            log := s.log ++ [Event.serverCall server_id tool_name args
                              (callTool server_id tool_name args)],
            final_text := s.final_text ++ [callingNotice tool_name server_id args] }
        match s1.script with
        | [] => { s1 with log := s1.log ++ [Event.modelCall], ok := false }
        | resp :: rest =>
          let s2 : LoopSt := { s1 with script := rest, log := s1.log ++ [Event.modelCall] }
          match resp with
          | ContentBlock.text t :: _ => { s2 with final_text := s2.final_text ++ [t] }
          | _ => { s2 with ok := false }
      | none => { s with final_text := s.final_text ++ [unknownToolNotice tool_name] }

/-- Result of one process_query run: the returned string (none when an
exception propagated to the chat loop), the client state afterwards, and
the external calls made. -/
structure PQResult where
  answer : Option String
  client : MCPClient
  log : List Event
deriving DecidableEq, Repr

/-- client.py process_query. The model is an external oracle scripted as
a list of responses consumed one per API call; callTool is the external
tool-execution oracle. A falsy current id returns the error string at
once. Otherwise the catalog is built (refreshing every cache), the first
model call is made, and the block loop runs over that first response
only; the final answer joins the accumulated fragments with newlines. -/
def process_query (st : MCPClient) (_query : String)
    (script : List (List ContentBlock))
    (callTool : String → String → String → String) : PQResult :=
  if isFalsy st.current_server_id then
    { answer := some noActiveServerMsg, client := st, log := [] }
  else
    let toolMap := (buildCatalog st.servers).2
    let st2 : MCPClient := { st with servers := refreshAll st.servers }
    match script with
    | [] => { answer := none, client := st2, log := [Event.modelCall] }
    | resp :: rest =>
      let s0 : LoopSt := { final_text := [], script := rest, log := [Event.modelCall], ok := true }
      let s1 := resp.foldl (processBlock toolMap callTool) s0
      if s1.ok then
        { answer := some (String.intercalate "\n" s1.final_text), client := st2, log := s1.log }
      else
        { answer := none, client := st2, log := s1.log }

/-- Observable behaviour of src/main.py: exit 1 with the usage message,
exit 1 with the pairing error message, or run the loop after connecting
the given (server id, script path) pairs in order. -/
inductive MainAction where
  | exitUsage : MainAction
  | exitPairError : MainAction
  | run : List (String × String) → MainAction
deriving DecidableEq, Repr

/-- The pair-collection loop of main: argv positions 1 and 2, then 3 and
4, and so on; a trailing unpaired element is dropped (unreachable after
the parity check). -/
def collectPairs : List String → List (String × String)
  | server_id :: path :: rest => (server_id, path) :: collectPairs rest
  | _ => []

/-- src/main.py main over sys.argv (argv head is the program name):
fewer than three elements print usage and exit 1; an even element count
prints the pairing error and exits 1; otherwise every (id, path) pair is
connected in order and the chat loop starts. -/
def mainEntry (argv : List String) : MainAction :=
  if argv.length < 3 then MainAction.exitUsage
  else if argv.length % 2 ≠ 1 then MainAction.exitPairError
  else MainAction.run (collectPairs argv.tail)

/-- Decide whether a main outcome is an exit with code 1. -/
def exitsOne : MainAction → Bool
  | MainAction.run _ => false
  | _ => true

/-- The attribute names resolvable on an MCPClient instance: the fields
set by __init__ and the methods of the class, from src/client.py. The
attributes stdio and write only appear after a first connect and are
irrelevant here. -/
def mcpClientAttributeNames : List String :=
  ["session", "exit_stack", "anthropic", "servers", "current_server_id",
   "connect_to_server", "switch_server", "list_servers", "disconnected_server",
   "process_query", "chat_loop", "cleanup"]

/-- Outcome of one interactive /disconnect command: the handler ran, or
an exception was caught by the except clause of the chat loop. -/
inductive ShellOutcome where
  | dispatched : ShellOutcome
  | attributeErrorCaught : ShellOutcome
deriving DecidableEq, Repr

/-- The /disconnect branch of chat_loop: Python resolves the attribute
disconnect_server on self before any call; resolution failure raises
AttributeError, caught by the surrounding except handler with the state
untouched. Were the attribute present it would be the removal logic,
which the class defines only under the name disconnected_server. -/
def chatLoopDisconnectCommand (st : MCPClient) (server_id : String) :
    MCPClient × ShellOutcome :=
  if mcpClientAttributeNames.contains "disconnect_server" then
    ((disconnected_server st server_id).1, ShellOutcome.dispatched)
  else
    (st, ShellOutcome.attributeErrorCaught)

/-- Flatten a list of (server id, script path) pairs into the flat
argument list that main expects after the program name. -/
def flatPairs : List (String × String) → List String
  | [] => []
  | (server_id, path) :: rest => server_id :: path :: flatPairs rest

/-- The add tool of the end-to-end scenario of the spec. -/
def addTool : Tool :=
  { name := "add", description := "Add two numbers", inputSchema := "object" }

/-- The calc server connection of the end-to-end scenario. -/
def calcConn : ServerConnection :=
  { server_id := "calc", tools := [addTool], live := [addTool] }

/-- A client whose registry holds exactly the calc server. -/
def calcClient : MCPClient :=
  { servers := [("calc", calcConn)], current_server_id := some "calc" }

/-- The textual form of the arguments of the scripted tool request. -/
def addArgs : String := "\x7b\x27a\x27: 2, \x27b\x27: 3\x7d"

/-- The scripted model of the end-to-end scenario: first a single tool
request for add, then a plain-text final answer. -/
def calcScript : List (List ContentBlock) :=
  [[ContentBlock.tool_use "toolu_01" "add" addArgs],
   [ContentBlock.text "The result is 5"]]

/-- The tool-execution oracle of the end-to-end scenario: every call
returns 5. -/
def calcOracle : String → String → String → String := fun _ _ _ => "5"

/-- Two servers whose ids and descriptions make the two server-id
prefixed catalog descriptions collide as strings. -/
def cexServers : List (String × ServerConnection) :=
  [("a", { server_id := "a", tools := [],
           live := [{ name := "x", description := "b] c", inputSchema := "s1" }] }),
   ("a] b", { server_id := "a] b", tools := [],
              live := [{ name := "x", description := "c", inputSchema := "s2" }] })]

/-- A connection with no tools, used in concrete registries. -/
def exConnA : ServerConnection := { server_id := "a", tools := [], live := [] }

/-- A second connection with no tools. -/
def exConnB : ServerConnection := { server_id := "b", tools := [], live := [] }

/-- A registry with two servers whose current server is the first. -/
def exTwoServers : MCPClient :=
  { servers := [("a", exConnA), ("b", exConnB)], current_server_id := some "a" }

/-- A registry already holding the server id a. -/
def exDupClient : MCPClient :=
  { servers := [("a", exConnA)], current_server_id := some "a" }

/-- A server exposing a tool named x, for the collision scenario. -/
def exConnX1 : ServerConnection :=
  { server_id := "alpha", tools := [],
    live := [{ name := "x", description := "first", inputSchema := "s1" }] }

/-- A second server exposing a tool named x. -/
def exConnX2 : ServerConnection :=
  { server_id := "betaa", tools := [],
    live := [{ name := "x", description := "second", inputSchema := "s2" }] }

/-- A mid-turn loop state with one accumulated fragment. -/
def loopStEx : LoopSt :=
  { final_text := ["hello"], script := [], log := [Event.modelCall], ok := true }

/-- Lookup distributes over association-list concatenation: the left
part wins when it holds the key. -/
theorem alookup_append {α : Type} (l m : List (String × α)) (key : String) :
    alookup (l ++ m) key =
      match alookup l key with
      | some v => some v
      | none => alookup m key := by
  induction l with
  | nil => simp [alookup]
  | cons p rest ih =>
    obtain ⟨k, v⟩ := p
    by_cases h : k = key
    · simp [alookup, h]
    · simp [alookup, h, ih]

/-- Updating the value at one key preserves which keys are present. -/
theorem alookup_aupdate_isSome {α : Type} (l : List (String × α)) (key key2 : String) (v : α) :
    (alookup (aupdate l key v) key2).isSome = (alookup l key2).isSome := by
  induction l with
  | nil => simp [aupdate]
  | cons p rest ih =>
    obtain ⟨k, w⟩ := p
    by_cases hk : k = key
    · subst hk
      by_cases hk2 : k = key2 <;> simp [aupdate, alookup, hk2]
    · by_cases hk2 : k = key2
      · subst hk2
        simp [aupdate, alookup, hk]
      · simp [aupdate, alookup, hk, hk2, ih]

/-- After erasing a key, looking it up fails. -/
theorem alookup_aerase_self {α : Type} (l : List (String × α)) (key : String) :
    alookup (aerase l key) key = none := by
  induction l with
  | nil => simp [aerase, alookup]
  | cons p rest ih =>
    obtain ⟨k, v⟩ := p
    by_cases h : k = key
    · simp [aerase, h, ih]
    · simp [aerase, alookup, h, ih]

/-- Erasing one key leaves every other key's binding unchanged. -/
theorem alookup_aerase_ne {α : Type} (l : List (String × α)) (key key2 : String)
    (h : key2 ≠ key) :
    alookup (aerase l key) key2 = alookup l key2 := by
  induction l with
  | nil => simp [aerase]
  | cons p rest ih =>
    obtain ⟨k, v⟩ := p
    by_cases hk : k = key
    · subst hk
      have hne : ¬ (k = key2) := fun hh => h hh.symm
      simp [aerase, alookup, hne, ih]
    · simp [aerase, alookup, hk, ih]

/-- The invariant, phrased pointwise on the current id. -/
theorem invHolds_eq_true (st : MCPClient) :
    invHolds st = true ↔
      (∀ c, st.current_server_id = some c → (alookup st.servers c).isSome = true) := by
  cases hc : st.current_server_id <;> simp [invHolds, hc]

/-- Every single registry mutation preserves the invariant. -/
theorem invHolds_applyOp (st : MCPClient) (op : Op) (h : invHolds st = true) :
    invHolds (applyOp st op) = true := by
  cases op with
  | connect server_id path ext =>
    by_cases h1 : (alookup st.servers server_id).isSome = true
    · simpa [applyOp, connect_to_server, h1] using h
    · by_cases h2 : (strEndsWith path ".py" || strEndsWith path ".js") = true
      · by_cases h3 : ext.transportOk = true
        · by_cases h4 : ext.initOk = true
          · have hnone : alookup st.servers server_id = none := by
              simpa [Option.isNone_iff_eq_none] using h1
            by_cases h5 : ext.listToolsOk = true
            · rcases hcur : st.current_server_id with _ | c
              · simp [applyOp, connect_to_server, h1, h2, h3, h4, h5, hcur, invHolds,
                      alookup_aupdate_isSome, alookup_append, hnone, alookup]
              · have hc : (alookup st.servers c).isSome = true := by
                  simpa [invHolds, hcur] using h
                rcases hsome : alookup st.servers c with _ | v
                · rw [hsome] at hc; simp at hc
                · simp [applyOp, connect_to_server, h1, h2, h3, h4, h5, hcur, invHolds,
                        alookup_aupdate_isSome, alookup_append, hsome]
            · rcases hcur : st.current_server_id with _ | c
              · simp [applyOp, connect_to_server, h1, h2, h3, h4, h5, hcur, invHolds,
                      alookup_append, hnone, alookup]
              · have hc : (alookup st.servers c).isSome = true := by
                  simpa [invHolds, hcur] using h
                rcases hsome : alookup st.servers c with _ | v
                · rw [hsome] at hc; simp at hc
                · simp [applyOp, connect_to_server, h1, h2, h3, h4, h5, hcur, invHolds,
                        alookup_append, hsome]
          · simpa [applyOp, connect_to_server, h1, h2, h3, h4] using h
        · simpa [applyOp, connect_to_server, h1, h2, h3] using h
      · simpa [applyOp, connect_to_server, h1, h2] using h
  | switch server_id =>
    by_cases h1 : (alookup st.servers server_id).isSome = true
    · simp [applyOp, switch_server, h1, invHolds]
    · simpa [applyOp, switch_server, h1] using h
  | disconnect server_id =>
    rcases hl : alookup st.servers server_id with _ | c
    · simpa [applyOp, disconnected_server, hl] using h
    · rcases hcur : st.current_server_id with _ | c2
      · simp [applyOp, disconnected_server, hl, hcur, invHolds]
      · by_cases he : c2 = server_id
        · subst he
          rcases hs : aerase st.servers c2 with _ | ⟨⟨k, v⟩, rest⟩
          · simp [applyOp, disconnected_server, hl, hcur, hs, invHolds]
          · simp [applyOp, disconnected_server, hl, hcur, hs, invHolds, alookup]
        · have h2 : (alookup st.servers c2).isSome = true := by
            simpa [invHolds, hcur] using h
          simp [applyOp, disconnected_server, hl, hcur, he, invHolds,
                alookup_aerase_ne st.servers server_id c2 he, h2]

/-- The invariant is preserved along any operation sequence. -/
theorem invHolds_runOps (ops : List Op) (st : MCPClient) (h : invHolds st = true) :
    invHolds (runOps st ops) = true := by
  induction ops generalizing st with
  | nil => simpa [runOps] using h
  | cons op rest ih => exact ih (applyOp st op) (invHolds_applyOp st op h)

/-- String append acts as list append on the underlying character data. -/
theorem data_append (a b : String) : (a ++ b).data = a.data ++ b.data := rfl

/-- Strings with equal character data are equal. -/
theorem string_eq_of_data {a b : String} (h : a.data = b.data) : a = b := by
  cases a
  cases b
  exact congrArg String.mk h

/-- Two equal qualified descriptions built from ids of equal length must
come from the same server id. -/
theorem qual_inj (A B dA dB : String) (hlen : A.length = B.length)
    (h : qualifiedDescription A dA = qualifiedDescription B dB) : A = B := by
  have hd := congrArg String.data h
  simp only [qualifiedDescription, data_append, List.append_assoc] at hd
  have hd2 := List.append_cancel_left hd
  have hlen2 : A.data.length = B.data.length := hlen
  exact string_eq_of_data (List.append_inj hd2 hlen2).1

/-- Collecting pairs undoes flattening. -/
theorem collectPairs_flatPairs (ps : List (String × String)) :
    collectPairs (flatPairs ps) = ps := by
  induction ps with
  | nil => rfl
  | cons p rest ih =>
    obtain ⟨a, b⟩ := p
    simp [flatPairs, collectPairs, ih]

/-- A flattened pair list has twice as many elements. -/
theorem flatPairs_length (ps : List (String × String)) :
    (flatPairs ps).length = 2 * ps.length := by
  induction ps with
  | nil => rfl
  | cons p rest ih =>
    obtain ⟨a, b⟩ := p
    simp [flatPairs, ih]
    omega

/-- C1 (counterexample): in the end-to-end scenario — registry holding
only calc with tool add, first scripted response a single tool request
for add, dispatched call returning 5, second scripted response the plain
text The result is 5 — process_query does NOT return exactly the string
The result is 5. -/
theorem c1_counterexample :
    (process_query calcClient "What is 2 + 3?" calcScript calcOracle).answer ≠
      some "The result is 5" := by
  decide

/-- C1 (amended): in that scenario process_query returns the accumulated
fragments joined by newlines, and a bracketed call notice is appended
for the dispatched tool call before the model's final text, so the
result is the notice line, a newline, then The result is 5; exactly one
server call (add on calc, returning 5) sits between the two model
calls, and the client state is unchanged. -/
theorem c1_end_to_end :
    process_query calcClient "What is 2 + 3?" calcScript calcOracle =
      { answer := some ("[Calling tool add on server calc with args " ++ addArgs ++
                        "]\nThe result is 5"),
        client := calcClient,
        log := [Event.modelCall, Event.serverCall "calc" "add" addArgs "5",
                Event.modelCall] } := by
  decide

/-- C2 (counterexample): with server ids a and a] b and descriptions
b] c and c, both catalog entries named x carry the SAME prefixed
description, so the claim that the two entries always have different
descriptions fails, even though the owner map still points at the later
server. -/
theorem c2_counterexample :
    (buildCatalog cexServers).1.map ToolDict.description =
      ["[Server: a] b] c", "[Server: a] b] c"] ∧
    alookup (buildCatalog cexServers).2 "x" = some "a] b" := by
  decide

/-- C2 (amended): for two servers A then B each exposing a tool named x,
the owner map sends x to B (last-registered-wins) and the catalog holds
two entries named x, one per server, carrying the server-id-prefixed
descriptions; those descriptions differ whenever the two ids have equal
length (they can coincide only for crafted ids and descriptions whose
prefixed strings collide, as in the counterexample). -/
theorem c2_collision_catalog (A B dA dB sA sB : String)
    (cA cB : ServerConnection)
    (hA : cA.live = [{ name := "x", description := dA, inputSchema := sA }])
    (hB : cB.live = [{ name := "x", description := dB, inputSchema := sB }])
    (hne : A ≠ B) :
    alookup (buildCatalog [(A, cA), (B, cB)]).2 "x" = some B ∧
    (buildCatalog [(A, cA), (B, cB)]).1 =
      [{ name := "x", description := qualifiedDescription A dA, input_schema := sA },
       { name := "x", description := qualifiedDescription B dB, input_schema := sB }] ∧
    (A.length = B.length → qualifiedDescription A dA ≠ qualifiedDescription B dB) := by
  refine ⟨?_, ?_, ?_⟩
  · simp [buildCatalog, catalogStep, hA, hB, alookup]
  · simp [buildCatalog, catalogStep, hA, hB]
  · intro hlen heq
    exact hne (qual_inj A B dA dB hlen heq)

/-- Witness for C2 at two equal-length server ids. -/
theorem c2_witness :
    alookup (buildCatalog [("alpha", exConnX1), ("betaa", exConnX2)]).2 "x" = some "betaa" ∧
    qualifiedDescription "alpha" "first" ≠ qualifiedDescription "betaa" "second" := by
  refine ⟨(c2_collision_catalog "alpha" "betaa" "first" "second" "s1" "s2"
      exConnX1 exConnX2 rfl rfl (by decide)).1, ?_⟩
  exact (c2_collision_catalog "alpha" "betaa" "first" "second" "s1" "s2"
      exConnX1 exConnX2 rfl rfl (by decide)).2.2 (by decide)

/-- C3 (counterexample): a connect attempt on a fresh id that fails at
the initial tool-list fetch does NOT leave the state as it was: the
entry is already registered and made current. -/
theorem c3_counterexample :
    (connect_to_server initClient "s" "srv.py"
        { transportOk := true, initOk := true, listToolsOk := false, liveTools := [] }).2 =
      ConnectResult.listToolsError ∧
    (connect_to_server initClient "s" "srv.py"
        { transportOk := true, initOk := true, listToolsOk := false, liveTools := [] }).1 ≠
      initClient := by
  decide

/-- C3 (amended): for a fresh id and a valid script suffix, a failure at
transport establishment or at the protocol handshake leaves the registry
and current id exactly unchanged; a failure at the initial tool-list
fetch instead happens after the connection is stored with an empty tool
cache, with the current id set to the new server when it was previously
unset. -/
theorem c3_connect_error_states (st : MCPClient) (server_id path : String) (ext : ConnectExt)
    (hfresh : alookup st.servers server_id = none)
    (hpath : (strEndsWith path ".py" || strEndsWith path ".js") = true) :
    (ext.transportOk = false → (connect_to_server st server_id path ext).1 = st) ∧
    (ext.initOk = false → (connect_to_server st server_id path ext).1 = st) ∧
    (ext.transportOk = true → ext.initOk = true → ext.listToolsOk = false →
      (connect_to_server st server_id path ext).1 =
        { servers := st.servers ++
            [(server_id, { server_id := server_id, tools := [], live := ext.liveTools })],
          current_server_id :=
            if st.current_server_id = none then some server_id
            else st.current_server_id }) := by
  have hfresh2 : ¬ ((alookup st.servers server_id).isSome = true) := by simp [hfresh]
  refine ⟨?_, ?_, ?_⟩
  · intro ht
    simp [connect_to_server, hfresh2, hpath, ht]
  · intro hi
    cases htr : ext.transportOk <;> simp [connect_to_server, hfresh2, hpath, hi, htr]
  · intro ht hi hl
    rcases hcur : st.current_server_id with _ | c <;>
      simp [connect_to_server, hfresh2, hpath, ht, hi, hl, hcur]

/-- Witness for C3 at a transport failure on a fresh client. -/
theorem c3_witness :
    (connect_to_server initClient "s" "a.py"
        { transportOk := false, initOk := true, listToolsOk := true, liveTools := [] }).1 =
      initClient :=
  (c3_connect_error_states initClient "s" "a.py"
      { transportOk := false, initOk := true, listToolsOk := true, liveTools := [] }
      rfl (by decide)).1 rfl

/-- C4: for every finite sequence of connect, switch and disconnect
operations starting from the fresh client, the resulting state satisfies
the invariant: current_server_id is unset or a key of the registry.
Quantifying over all sequences covers the state after every individual
operation, since each prefix is itself a sequence. -/
theorem c4_current_always_registered (ops : List Op) :
    invHolds (runOps initClient ops) = true :=
  invHolds_runOps ops initClient rfl

/-- C5: a tool-request block whose name is absent from the owner map
appends exactly the textual error notice for that tool and changes
nothing else: no server call, no model call, the script untouched, and
execution still live for the remaining blocks. -/
theorem c5_unknown_tool_block (toolMap : List (String × String))
    (callTool : String → String → String → String) (s : LoopSt)
    (corr tool_name args : String)
    (hok : s.ok = true) (hmiss : alookup toolMap tool_name = none) :
    processBlock toolMap callTool s (ContentBlock.tool_use corr tool_name args) =
      { s with final_text := s.final_text ++ [unknownToolNotice tool_name] } := by
  simp [processBlock, hok, hmiss]

/-- Witness for C5 on a concrete mid-turn state and unknown tool. -/
theorem c5_witness :
    processBlock [] (fun _ _ _ => "") loopStEx
        (ContentBlock.tool_use "toolu_02" "mystery" "\x7b\x7d") =
      { loopStEx with
        final_text := loopStEx.final_text ++ [unknownToolNotice "mystery"] } :=
  c5_unknown_tool_block [] (fun _ _ _ => "") loopStEx "toolu_02" "mystery" "\x7b\x7d" rfl rfl

/-- C6: in every reachable state whose registry is empty, a plain query
returns the no-active-server message at once, with no model call, no
server call, and the client state unchanged. -/
theorem c6_empty_registry_query (ops : List Op) (q : String)
    (script : List (List ContentBlock)) (callTool : String → String → String → String)
    (hempty : (runOps initClient ops).servers = []) :
    process_query (runOps initClient ops) q script callTool =
      { answer := some noActiveServerMsg, client := runOps initClient ops, log := [] } := by
  have hinv := invHolds_runOps ops initClient rfl
  rcases hcur : (runOps initClient ops).current_server_id with _ | c
  · simp [process_query, isFalsy, hcur]
  · rw [invHolds_eq_true] at hinv
    have hc := hinv c hcur
    rw [hempty] at hc
    simp [alookup] at hc

/-- Witness for C6 on the fresh client. -/
theorem c6_witness :
    process_query initClient "hello" [] (fun _ _ _ => "") =
      { answer := some noActiveServerMsg, client := initClient, log := [] } :=
  c6_empty_registry_query [] "hello" [] (fun _ _ _ => "") rfl

/-- C7: disconnecting a present id returns true, drops exactly that key,
and: when the removed id was current, the new current is the first
remaining entry (hence, with exactly one other server, that server) or
unset when none remain; when it was not current, the current id is
unchanged; disconnecting an absent id returns false and changes
nothing. -/
theorem c7_disconnect_spec (st : MCPClient) (server_id : String) :
    (alookup st.servers server_id = none → disconnected_server st server_id = (st, false)) ∧
    ((alookup st.servers server_id).isSome = true →
      (disconnected_server st server_id).2 = true ∧
      alookup (disconnected_server st server_id).1.servers server_id = none ∧
      (∀ k, k ≠ server_id →
        alookup (disconnected_server st server_id).1.servers k = alookup st.servers k) ∧
      (st.current_server_id ≠ some server_id →
        (disconnected_server st server_id).1.current_server_id = st.current_server_id) ∧
      (st.current_server_id = some server_id →
        (disconnected_server st server_id).1.servers = [] →
        (disconnected_server st server_id).1.current_server_id = none) ∧
      (∀ k c rest, st.current_server_id = some server_id →
        (disconnected_server st server_id).1.servers = (k, c) :: rest →
        (disconnected_server st server_id).1.current_server_id = some k ∧
        alookup (disconnected_server st server_id).1.servers k = some c)) := by
  constructor
  · intro h
    simp [disconnected_server, h]
  · intro hsome
    obtain ⟨c0, hc0⟩ := Option.isSome_iff_exists.mp hsome
    refine ⟨?_, ?_, ?_, ?_, ?_, ?_⟩
    · simp [disconnected_server, hc0]
    · simp [disconnected_server, hc0, alookup_aerase_self]
    · intro k hk
      simp [disconnected_server, hc0, alookup_aerase_ne st.servers server_id k hk]
    · intro hne
      simp [disconnected_server, hc0, hne]
    · intro hcur hemp
      have h2 : aerase st.servers server_id = [] := by
        simpa [disconnected_server, hc0] using hemp
      simp [disconnected_server, hc0, hcur, h2]
    · intro k c rest hcur hcons
      have h2 : aerase st.servers server_id = (k, c) :: rest := by
        simpa [disconnected_server, hc0] using hcons
      constructor
      · simp [disconnected_server, hc0, hcur, h2]
      · simp [disconnected_server, hc0, h2, alookup]

/-- Witness for C7: removing the current server of a two-server registry
makes the remaining server current. -/
theorem c7_witness :
    (disconnected_server exTwoServers "a").2 = true ∧
    (disconnected_server exTwoServers "a").1.current_server_id = some "b" := by
  refine ⟨((c7_disconnect_spec exTwoServers "a").2 (by decide)).1, ?_⟩
  exact ((((c7_disconnect_spec exTwoServers "a").2 (by decide)).2.2.2.2.2)
      "b" exConnB [] rfl (by decide)).1

/-- C8: connecting an id already present returns at once with the
duplicate message, leaving the whole client state — the registry entry,
its cached tool list, and the current id — exactly untouched; no
external step is reached. -/
theorem c8_duplicate_connect_untouched (st : MCPClient) (server_id path : String)
    (ext : ConnectExt) (h : (alookup st.servers server_id).isSome = true) :
    connect_to_server st server_id path ext = (st, ConnectResult.duplicateMsg server_id) := by
  simp [connect_to_server, h]

/-- Witness for C8 on a registry already holding the id a. -/
theorem c8_witness :
    connect_to_server exDupClient "a" "other.py"
        { transportOk := true, initOk := true, listToolsOk := true, liveTools := [] } =
      (exDupClient, ConnectResult.duplicateMsg "a") :=
  c8_duplicate_connect_untouched exDupClient "a" "other.py"
    { transportOk := true, initOk := true, listToolsOk := true, liveTools := [] } (by decide)

/-- C9 (counterexample): an argument count of one IS of the form 1 + 2k
(with k zero, the empty pair list), yet main exits with the usage
message, so exit 1 does not happen exactly when the count is not of
that form. -/
theorem c9_counterexample :
    mainEntry ["main.py"] = MainAction.exitUsage ∧
    List.length ["main.py"] = 1 + 2 * 0 := by
  decide

/-- C9 (amended): main exits with code 1 exactly when the argument count
is not of the form 1 + 2k with k at least one, and otherwise connects to
the given (id, path) pairs in order before entering the loop. -/
theorem c9_args_check (argv : List String) :
    (exitsOne (mainEntry argv) = true ↔ ¬ (∃ k, 1 ≤ k ∧ argv.length = 1 + 2 * k)) ∧
    (∀ prog ps, ps ≠ [] → argv = prog :: flatPairs ps →
      mainEntry argv = MainAction.run ps) := by
  constructor
  · by_cases h1 : argv.length < 3
    · simp [mainEntry, h1, exitsOne]
      rintro k hk hlen
      omega
    · by_cases h2 : argv.length % 2 = 1
      · simp [mainEntry, h1, h2, exitsOne]
        exact ⟨(argv.length - 1) / 2, by omega, by omega⟩
      · simp [mainEntry, h1, h2, exitsOne]
        rintro k hk hlen
        omega
  · rintro prog ps hps rfl
    have hfl : (flatPairs ps).length = 2 * ps.length := flatPairs_length ps
    have hpos : 0 < ps.length := List.length_pos.mpr hps
    have h3 : ¬ ((flatPairs ps).length + 1 < 3) := by omega
    have h4 : ¬ (((flatPairs ps).length + 1) % 2 = 0) := by omega
    simp [mainEntry, h3, h4, collectPairs_flatPairs]

/-- Witness for C9 with one (id, path) pair. -/
theorem c9_witness :
    mainEntry ["main.py", "calc", "calc.py"] = MainAction.run [("calc", "calc.py")] :=
  (c9_args_check ["main.py", "calc", "calc.py"]).2 "main.py" [("calc", "calc.py")]
    (by decide) rfl

/-- C10: the interactive /disconnect command resolves the attribute
disconnect_server, which the class does not define (the removal logic
lives under the name disconnected_server), so for every state and id the
command ends in the caught AttributeError with registry and current id
left unchanged. -/
theorem c10_disconnect_command_noop (st : MCPClient) (server_id : String) :
    chatLoopDisconnectCommand st server_id = (st, ShellOutcome.attributeErrorCaught) ∧
    mcpClientAttributeNames.contains "disconnect_server" = false ∧
    mcpClientAttributeNames.contains "disconnected_server" = true := by
  have hmem : "disconnect_server" ∉ mcpClientAttributeNames := by decide
  refine ⟨?_, by decide, by decide⟩
  simp [chatLoopDisconnectCommand, hmem]

end Mcp
